import Mathlib

/-!
Shallow embedding of the DreamControl monitor-controller core
(src/plugin/PluginProcessor.cpp) and proofs about its metering,
telemetry, peak-hold and mode-parameter logic.

Real-valued audio and metering quantities are modelled as rationals; the
C float operations the code uses (modf, roundf, comparisons, clamping,
division by constant ranges) are translated exactly over ℚ.  Fallible
hardware output (a MIDI port that may have failed to open, held as a
possibly-NULL pointer) is modelled with Except: dereferencing the
missing port is an error value, a guarded send is an Option.
-/

namespace DreamControl

/-- Timer period in milliseconds, CALLBACK_TIMER_PERIOD_MS in the source. -/
def CALLBACK_TIMER_PERIOD_MS : ℚ := 10

/-- Lower bound for true-peak metering, LOWEST_TRUE_PEAK_VALUE in the source. -/
def LOWEST_TRUE_PEAK_VALUE : ℚ := -125

/-- Lower bound for LUFS metering, LOWEST_LUFS_VALUE in the source. -/
def LOWEST_LUFS_VALUE : ℚ := -64

/-- Lower bound for the monitor volume, LOWEST_VOLUME_VALUE in the source. -/
def LOWEST_VOLUME_VALUE : ℚ := -64

/-- Upper bound for true-peak metering, HIGHEST_TRUE_PEAK_VALUE in the source. -/
def HIGHEST_TRUE_PEAK_VALUE : ℚ := 3

/-- The meter-data SysEx command code. -/
def SYSEX_COMMAND_METER_DATA : ℕ := 1

/-- The sync-buttons SysEx command code. -/
def SYSEX_COMMAND_SYNC_BUTTONS : ℕ := 2

/-- The three-byte SysEx manufacturer id, sysexManufacturerId in the source. -/
def sysexManufacturerId : List ℕ := [0x00, 0x21, 0x69]

/-- Truncation toward zero of a rational: the integral part that C modf
returns for a float.  Written with Int.floor of the negation on the
negative branch (the ceiling) so that it evaluates by norm_num. -/
def rtrunc (q : ℚ) : ℤ := if q < 0 then -(⌊-q⌋) else ⌊q⌋

/-- C roundf: round half away from zero. -/
def roundHalfAway (q : ℚ) : ℤ :=
  if q < 0 then -(⌊-q + 1/2⌋) else ⌊q + 1/2⌋

/-- getMeterIntegralFractional from the source: modf splits the value
into integral and (same-signed) fractional parts, the fractional part is
scaled by 100 and rounded, both are made absolute and clamped to 99, and
the two resulting bytes are returned as (integral, fractional). -/
def getMeterIntegralFractional (val : ℚ) : ℕ × ℕ :=
  let integral : ℤ := rtrunc val
  let fractional : ℚ := val - integral
  let fr : ℕ := (roundHalfAway (fractional * 100)).natAbs
  let im : ℕ := integral.natAbs
  (min im 99, min fr 99)

/-- The byte-pair encoding exactly as the SPEC words it, for comparison
with getMeterIntegralFractional: integral = abs(trunc(value)) clamped to
99, fractional = round(abs(frac(value)) * 100) clamped to 99. -/
def specIntegralFractional (val : ℚ) : ℕ × ℕ :=
  (min (rtrunc val).natAbs 99,
   min (roundHalfAway (|val - ((rtrunc val : ℤ) : ℚ)| * 100)).toNat 99)

/-- LUFS write-back normalization (hiResTimerCallback): clamp at the
LUFS floor, shift by the floor and divide by its magnitude. -/
def lufsNormalize (v : ℚ) : ℚ :=
  ((if v ≥ LOWEST_LUFS_VALUE then v else LOWEST_LUFS_VALUE) - LOWEST_LUFS_VALUE)
    / -LOWEST_LUFS_VALUE

/-- The true-peak normalization range used by hiResTimerCallback:
truePeakRange = LOWEST_TRUE_PEAK_VALUE - HIGHEST_TRUE_PEAK_VALUE. -/
def truePeakRange : ℚ := LOWEST_TRUE_PEAK_VALUE - HIGHEST_TRUE_PEAK_VALUE

/-- Write-back normalization of an already-shifted true-peak value
(the code first subtracts HIGHEST_TRUE_PEAK_VALUE from the raw value):
clamp at truePeakRange, shift by it and divide by its magnitude. -/
def truePeakNormalizeShifted (pv : ℚ) : ℚ :=
  ((if pv ≥ truePeakRange then pv else truePeakRange) - truePeakRange) / -truePeakRange

/-- Full true-peak write-back on the raw measured value: the code shifts
by HIGHEST_TRUE_PEAK_VALUE before normalizing. -/
def truePeakNormalize (raw : ℚ) : ℚ :=
  truePeakNormalizeShifted (raw - HIGHEST_TRUE_PEAK_VALUE)

/-- The normalization formula exactly as the SPEC words it for a metric
with lower bound fl: clamp(value, fl); normalized = (clamped - fl) / (-fl). -/
def specNormalize (fl v : ℚ) : ℚ := ((if v ≥ fl then v else fl) - fl) / -fl

/-- Per-tick peak-hold and clip state from the source: the held (shifted)
maxima per channel, the shared elapsed-time counter, the two normalized
held-peak Parameters and the two clip Parameters. -/
structure PeakState where
  lastMaxLeft : ℚ
  lastMaxRight : ℚ
  msSinceLastPeakReset : ℚ
  peakMeterMaxLeft : ℚ
  peakMeterMaxRight : ℚ
  clipMeterLeft : Bool
  clipMeterRight : Bool
deriving DecidableEq

/-- One timer tick of the peak-hold section of hiResTimerCallback, fed
the configured hold duration (seconds) and the shifted instantaneous
true peaks of the two channels.  Per channel, the held maximum, the
normalized held-peak Parameter and the clip Parameter update when hold
is zero, or the elapsed counter reached the hold duration, or the new
peak exceeds the held one; afterwards the shared elapsed counter is
zeroed on expiry and then advanced by the tick period while holding. -/
def peakTick (peakHold pL pR : ℚ) (s : PeakState) : PeakState :=
  let s1 :=
    if peakHold = 0 ∨ s.msSinceLastPeakReset ≥ peakHold * 1000 ∨ pL > s.lastMaxLeft then
      { s with peakMeterMaxLeft := truePeakNormalizeShifted pL,
               clipMeterLeft := decide (pL + HIGHEST_TRUE_PEAK_VALUE > 0),
               lastMaxLeft := pL }
    else s
  let s2 :=
    if peakHold = 0 ∨ s.msSinceLastPeakReset ≥ peakHold * 1000 ∨ pR > s.lastMaxRight then
      { s1 with peakMeterMaxRight := truePeakNormalizeShifted pR,
                clipMeterRight := decide (pR + HIGHEST_TRUE_PEAK_VALUE > 0),
                lastMaxRight := pR }
    else s1
  let s3 :=
    if peakHold = 0 ∨ s.msSinceLastPeakReset ≥ peakHold * 1000 then
      { s2 with msSinceLastPeakReset := 0 }
    else s2
  if peakHold > 0 then
    { s3 with msSinceLastPeakReset := s3.msSinceLastPeakReset + CALLBACK_TIMER_PERIOD_MS }
  else s3

/-- Iterated timer ticks, feeding one instantaneous peak per tick to
both channels. -/
def iterTicks (hold : ℚ) (ps : List ℚ) (s : PeakState) : PeakState :=
  ps.foldl (fun st p => peakTick hold p p st) s

/-- The meter-data SysEx payload assembled by hiResTimerCallback, as the
flat byte array the source builds: manufacturer id, command code, twelve
integral/fractional pairs (short, momentary, integrated, range min,
range max, range span, target, shifted true-peak L and R, held peak L
and R, held peak max), then the two clip flags. -/
def meterPacket (lufsSval lufsMval lufsIval lufsMinVal lufsMaxVal lufsTargetVal
    pL pR lastMaxL lastMaxR : ℚ) : List ℕ :=
  [0x00, 0x21, 0x69,
   SYSEX_COMMAND_METER_DATA,
   (getMeterIntegralFractional lufsSval).1, (getMeterIntegralFractional lufsSval).2,
   (getMeterIntegralFractional lufsMval).1, (getMeterIntegralFractional lufsMval).2,
   (getMeterIntegralFractional lufsIval).1, (getMeterIntegralFractional lufsIval).2,
   (getMeterIntegralFractional lufsMinVal).1, (getMeterIntegralFractional lufsMinVal).2,
   (getMeterIntegralFractional lufsMaxVal).1, (getMeterIntegralFractional lufsMaxVal).2,
   (getMeterIntegralFractional (lufsMaxVal - lufsMinVal)).1,
   (getMeterIntegralFractional (lufsMaxVal - lufsMinVal)).2,
   (getMeterIntegralFractional lufsTargetVal).1, (getMeterIntegralFractional lufsTargetVal).2,
   (getMeterIntegralFractional pL).1, (getMeterIntegralFractional pL).2,
   (getMeterIntegralFractional pR).1, (getMeterIntegralFractional pR).2,
   (getMeterIntegralFractional lastMaxL).1, (getMeterIntegralFractional lastMaxL).2,
   (getMeterIntegralFractional lastMaxR).1, (getMeterIntegralFractional lastMaxR).2,
   (getMeterIntegralFractional (if lastMaxL > lastMaxR then lastMaxL else lastMaxR)).1,
   (getMeterIntegralFractional (if lastMaxL > lastMaxR then lastMaxL else lastMaxR)).2,
   if pL + HIGHEST_TRUE_PEAK_VALUE > 0 then 1 else 0,
   if pR + HIGHEST_TRUE_PEAK_VALUE > 0 then 1 else 0]

/-- The number of crossovers hardwired in the constructor. -/
def numCrossovers : ℕ := 3

/-- The number of bands: crossovers plus one. -/
def numBands : ℕ := numCrossovers + 1

/-- isAnyBandSolo from the source: scans the band-solo flags. -/
def isAnyBandSolo (solo : List Bool) : Bool := solo.any (fun b => b)

/-- Filter count per band in processBlock: interior bands run four
cascaded stages, edge bands two. -/
def filtCount (band : ℕ) : ℕ := if 0 < band ∧ band < numBands - 1 then 4 else 2

/-- First filter index of a band: the running filtIndex of processBlock
after skipping the chains of all earlier bands. -/
def filtBase (band : ℕ) : ℕ := ((List.range band).map filtCount).sum

/-- The per-band filter cascade of processBlock: stage base feeds on the
input copy, every later stage feeds on the scratch channel buffer.  Each
stage is an opaque external filter unit, passed in as a function. -/
def applyChain (filt : ℕ → List ℚ → List ℚ) (base cnt : ℕ) (input : List ℚ) : List ℚ :=
  (List.range cnt).foldl (fun buf i => filt (base + i) buf) input

/-- One channel of the band-solo section of processBlock: the output
starts cleared and every soloed band's cascade output is summed into it;
non-soloed bands only advance the filter index. -/
def routerChannel (filt : ℕ → List ℚ → List ℚ) (solo : List Bool) (input : List ℚ) : List ℚ :=
  (List.range numBands).foldl
    (fun acc band =>
      if solo.getD band false then
        List.zipWith (fun a b => a + b) acc (applyChain filt (filtBase band) (filtCount band) input)
      else acc)
    (List.replicate input.length 0)

/-- The band-solo section of processBlock: a buffer of per-channel sample
lists passes through untouched unless some band is soloed, in which case
each channel is rebuilt from the soloed bands only. -/
def bandSoloRouter (filt : ℕ → ℕ → List ℚ → List ℚ) (solo : List Bool)
    (buffer : List (List ℚ)) : List (List ℚ) :=
  if isAnyBandSolo solo then
    buffer.mapIdx (fun chan data => routerChannel (filt chan) solo data)
  else buffer

/-- The sixteen boolean mode Parameters owned by the processor, keyed in
the model by their paramID strings. -/
structure ModeState where
  muteMode : Bool
  dimMode : Bool
  refMode : Bool
  midSolo : Bool
  sideSolo : Bool
  loudMode : Bool
  lufsReset : Bool
  lufsMode : Bool
  peakWithMomentaryMode : Bool
  relativeMode : Bool
  is1dbPeakScale : Bool
  volModMode : Bool
  solo1 : Bool
  solo2 : Bool
  solo3 : Bool
  solo4 : Bool
deriving DecidableEq

/-- Read a boolean Parameter by paramID. -/
def getParam (s : ModeState) (name : String) : Bool :=
  if name = "muteMode" then s.muteMode
  else if name = "dimMode" then s.dimMode
  else if name = "refMode" then s.refMode
  else if name = "midSolo" then s.midSolo
  else if name = "sideSolo" then s.sideSolo
  else if name = "loudMode" then s.loudMode
  else if name = "lufsReset" then s.lufsReset
  else if name = "lufsMode" then s.lufsMode
  else if name = "peakWithMomentaryMode" then s.peakWithMomentaryMode
  else if name = "relativeMode" then s.relativeMode
  else if name = "is1dbPeakScale" then s.is1dbPeakScale
  else if name = "volModMode" then s.volModMode
  else if name = "solo1" then s.solo1
  else if name = "solo2" then s.solo2
  else if name = "solo3" then s.solo3
  else if name = "solo4" then s.solo4
  else false

/-- Write a boolean Parameter by paramID (the bare value store; firing
the change callback is modelled separately). -/
def setParam (s : ModeState) (name : String) (v : Bool) : ModeState :=
  if name = "muteMode" then { s with muteMode := v }
  else if name = "dimMode" then { s with dimMode := v }
  else if name = "refMode" then { s with refMode := v }
  else if name = "midSolo" then { s with midSolo := v }
  else if name = "sideSolo" then { s with sideSolo := v }
  else if name = "loudMode" then { s with loudMode := v }
  else if name = "lufsReset" then { s with lufsReset := v }
  else if name = "lufsMode" then { s with lufsMode := v }
  else if name = "peakWithMomentaryMode" then { s with peakWithMomentaryMode := v }
  else if name = "relativeMode" then { s with relativeMode := v }
  else if name = "is1dbPeakScale" then { s with is1dbPeakScale := v }
  else if name = "volModMode" then { s with volModMode := v }
  else if name = "solo1" then { s with solo1 := v }
  else if name = "solo2" then { s with solo2 := v }
  else if name = "solo3" then { s with solo3 := v }
  else if name = "solo4" then { s with solo4 := v }
  else s

/-- The guard of modeChangedFunction that decides whether a mode change
resets the LUFS measurement accumulation: every paramID except dimMode,
refMode, muteMode and volModMode does. -/
def needsLufsReset (name : String) : Bool :=
  name != "dimMode" && name != "refMode" && name != "muteMode" && name != "volModMode"

/-- button_param_map from the constructor: hardware button id to the
bound Parameter's paramID, in ascending button order (std::map order). -/
def button_param_map : List (ℕ × String) :=
  [(0, "loudMode"), (1, "midSolo"), (2, "sideSolo"), (3, "solo1"), (4, "solo2"),
   (5, "solo3"), (6, "solo4"), (18, "muteMode"), (19, "dimMode"), (20, "refMode"),
   (35, "lufsReset"), (36, "lufsMode"), (37, "relativeMode"), (45, "volModMode"),
   (46, "peakWithMomentaryMode"), (47, "is1dbPeakScale")]

/-- The reverse scan at the end of modeChangedFunction: find the button
id bound to a changed Parameter, defaulting to 0 when none matches. -/
def buttonFor (name : String) : ℕ :=
  ((button_param_map.find? (fun p => p.2 == name)).map Prod.fst).getD 0

/-- An outbound wire message: a note-like button-state event or a SysEx
byte packet. -/
inductive WireMsg where
  | noteOn (channel : ℕ) (note : ℕ) (velocity : ℚ) : WireMsg
  | sysEx (data : List ℕ) : WireMsg
deriving DecidableEq

/-- An observable effect of the mode-change path: a LUFS accumulation
reset on the measurement unit, or a message handed to the output port. -/
inductive Effect where
  | lufsAccumReset : Effect
  | send (m : WireMsg) : Effect
deriving DecidableEq

/-- midiOutput->sendMessageNow as the source calls it, without checking
the pointer: when the output port failed to open (out = false,
midiOutput == NULL in the source) the call dereferences NULL, modelled
as an error; otherwise the message becomes a send effect. -/
def sendMessageNow (out : Bool) (m : WireMsg) : Except Unit Effect :=
  if out then Except.ok (Effect.send m) else Except.error ()

/-- The guarded telemetry emission of hiResTimerCallback: the packet is
sent only when the output port opened, and silently skipped otherwise. -/
def meterEmitGuard (out : Bool) (packet : List ℕ) : Option WireMsg :=
  if out then some (WireMsg.sysEx packet) else none

/-- A nested partner->setValueNotifyingHost(false) inside
modeChangedFunction: the partner Parameter is written false and its own
change callback runs with newValue = false, so no exclusivity branch
fires again; it may reset the LUFS accumulation and echoes one
button-state message. -/
def notifyFalse (out : Bool) (s : ModeState) (name : String) :
    Except Unit (ModeState × List Effect) :=
  let s1 := setParam s name false
  let evs := if needsLufsReset name then [Effect.lufsAccumReset] else []
  match sendMessageNow out (WireMsg.noteOn 1 (buttonFor name) 0) with
  | Except.error e => Except.error e
  | Except.ok m => Except.ok (s1, evs ++ [m])

/-- modeChangedFunction from the constructor, run for parameter name
having just been written newValue: optionally reset the LUFS
accumulation, clear the exclusive partner when a pair member was set
true, then echo one button-state message for the changed Parameter
through the (possibly NULL) output port. -/
def modeChanged (out : Bool) (s : ModeState) (name : String) (newValue : Bool) :
    Except Unit (ModeState × List Effect) :=
  let evs0 := if needsLufsReset name then [Effect.lufsAccumReset] else []
  let excl : Except Unit (ModeState × List Effect) :=
    if newValue && (name == "midSolo") then notifyFalse out s "sideSolo"
    else if newValue && (name == "sideSolo") then notifyFalse out s "midSolo"
    else if newValue && (name == "dimMode") then notifyFalse out s "refMode"
    else if newValue && (name == "refMode") then notifyFalse out s "dimMode"
    else Except.ok (s, [])
  match excl with
  | Except.error e => Except.error e
  | Except.ok (s1, evs1) =>
    match sendMessageNow out (WireMsg.noteOn 1 (buttonFor name) (if newValue then 1 else 0)) with
    | Except.error e => Except.error e
    | Except.ok m => Except.ok (s1, evs0 ++ evs1 ++ [m])

/-- Modelled from the spec: AudioParameterBoolNotify is declared in the
plugin header, which is not under src/; per the spec a Parameter's
change-notification callback fires on every externally- or
internally-driven write.  An external write of a mode Parameter stores
the value and then runs modeChangedFunction with it. -/
def writeModeParam (out : Bool) (s : ModeState) (name : String) (v : Bool) :
    Except Unit (ModeState × List Effect) :=
  modeChanged out (setParam s name v) name v

/-- The sync-buttons branch of handleIncomingMidiMessage: dump one
button-state message per map entry through the (possibly NULL) output
port, in map order. -/
def syncButtons (out : Bool) (s : ModeState) : Except Unit (List Effect) :=
  button_param_map.mapM
    (fun p => sendMessageNow out (WireMsg.noteOn 1 p.1 (if getParam s p.2 then 1 else 0)))

/-- Discriminator for a fallible hardware interaction: true exactly when
no NULL-pointer dereference happened. -/
def exceptIsOk {α : Type} (e : Except Unit α) : Bool :=
  match e with
  | Except.ok _ => true
  | Except.error _ => false

/-- The mode state with every Parameter off (the constructor defaults). -/
def cAllOff : ModeState :=
  ⟨false, false, false, false, false, false, false, false,
   false, false, false, false, false, false, false, false⟩

/-- A mode state with every Parameter on, an adversarial pre-state for
the exclusivity claims. -/
def cAllOn : ModeState :=
  ⟨true, true, true, true, true, true, true, true,
   true, true, true, true, true, true, true, true⟩

/-- A concrete peak-hold state: both channels hold -10 dB (shifted), the
shared elapsed counter stands at 4990 ms, clips clear. -/
def c2state : PeakState := ⟨-10, -10, 4990, 0, 0, false, false⟩

/-- A concrete peak-hold state for the 5-second hold scenario: both
channels hold -5 dB (shifted), elapsed counter at 4980 ms. -/
def c2holdstate : PeakState := ⟨-5, -5, 4980, 0, 0, false, false⟩

/-- A concrete peak-hold state for the clip-indicator witness: both
channels hold -10 dB (shifted), elapsed counter at 0, clips clear. -/
def c3state : PeakState := ⟨-10, -10, 0, 0, 0, false, false⟩

/-! ### Helper lemmas -/

lemma roundHalfAway_nonneg (x : ℚ) (hx : 0 ≤ x) : 0 ≤ roundHalfAway x := by
  unfold roundHalfAway
  rw [if_neg (not_lt.mpr hx)]
  exact Int.le_floor.mpr (by push_cast; linarith)

lemma roundHalfAway_natAbs_abs (x : ℚ) : (roundHalfAway x).natAbs = (roundHalfAway |x|).toNat := by
  rcases le_or_lt 0 x with h | h
  · rw [abs_of_nonneg h]
    have h0 := roundHalfAway_nonneg x h
    omega
  · rw [abs_of_neg h]
    unfold roundHalfAway
    rw [if_pos h, if_neg (not_lt.mpr (by linarith : (0:ℚ) ≤ -x))]
    have h0 : 0 ≤ ⌊-x + 1/2⌋ := Int.le_floor.mpr (by push_cast; linarith)
    omega

lemma gmif_eq_spec (v : ℚ) : getMeterIntegralFractional v = specIntegralFractional v := by
  show ((rtrunc v).natAbs ⊓ 99, (roundHalfAway ((v - ((rtrunc v : ℤ) : ℚ)) * 100)).natAbs ⊓ 99)
      = specIntegralFractional v
  unfold specIntegralFractional
  have habs : |v - ((rtrunc v : ℤ) : ℚ)| * 100 = |(v - ((rtrunc v : ℤ) : ℚ)) * 100| := by
    rw [abs_mul]
    norm_num
  rw [habs, roundHalfAway_natAbs_abs]

lemma peakTick_fire_left (hold pL pR : ℚ) (s : PeakState)
    (hC : hold = 0 ∨ s.msSinceLastPeakReset ≥ hold * 1000 ∨ pL > s.lastMaxLeft) :
    (peakTick hold pL pR s).lastMaxLeft = pL ∧
    (peakTick hold pL pR s).clipMeterLeft = decide (pL + HIGHEST_TRUE_PEAK_VALUE > 0) := by
  refine ⟨?_, ?_⟩ <;> (simp only [peakTick, if_pos hC]; split_ifs <;> rfl)

lemma peakTick_skip_left (hold pL pR : ℚ) (s : PeakState)
    (hC : ¬(hold = 0 ∨ s.msSinceLastPeakReset ≥ hold * 1000 ∨ pL > s.lastMaxLeft)) :
    (peakTick hold pL pR s).lastMaxLeft = s.lastMaxLeft ∧
    (peakTick hold pL pR s).clipMeterLeft = s.clipMeterLeft := by
  refine ⟨?_, ?_⟩ <;> (simp only [peakTick, if_neg hC]; split_ifs <;> rfl)

lemma peakTick_fire_right (hold pL pR : ℚ) (s : PeakState)
    (hC : hold = 0 ∨ s.msSinceLastPeakReset ≥ hold * 1000 ∨ pR > s.lastMaxRight) :
    (peakTick hold pL pR s).lastMaxRight = pR ∧
    (peakTick hold pL pR s).clipMeterRight = decide (pR + HIGHEST_TRUE_PEAK_VALUE > 0) := by
  refine ⟨?_, ?_⟩ <;> (simp only [peakTick, if_pos hC]; split_ifs <;> rfl)

lemma peakTick_skip_right (hold pL pR : ℚ) (s : PeakState)
    (hC : ¬(hold = 0 ∨ s.msSinceLastPeakReset ≥ hold * 1000 ∨ pR > s.lastMaxRight)) :
    (peakTick hold pL pR s).lastMaxRight = s.lastMaxRight ∧
    (peakTick hold pL pR s).clipMeterRight = s.clipMeterRight := by
  refine ⟨?_, ?_⟩ <;> (simp only [peakTick, if_neg hC]; split_ifs <;> rfl)

lemma peakTick_ms (hold pL pR : ℚ) (s : PeakState) (hpos : hold > 0) :
    (peakTick hold pL pR s).msSinceLastPeakReset =
      (if s.msSinceLastPeakReset ≥ hold * 1000 then 0 else s.msSinceLastPeakReset)
        + CALLBACK_TIMER_PERIOD_MS := by
  by_cases hms : s.msSinceLastPeakReset ≥ hold * 1000
  · have hC12 : hold = 0 ∨ s.msSinceLastPeakReset ≥ hold * 1000 := Or.inr hms
    rw [if_pos hms]
    simp only [peakTick, if_pos hC12, if_pos hpos]
  · have hC12 : ¬(hold = 0 ∨ s.msSinceLastPeakReset ≥ hold * 1000) := by
      push_neg
      exact ⟨ne_of_gt hpos, not_le.mp hms⟩
    rw [if_neg hms]
    simp only [peakTick, if_neg hC12, if_pos hpos]
    split_ifs <;> rfl

lemma iterTicks_cons (hold p : ℚ) (ps : List ℚ) (s : PeakState) :
    iterTicks hold (p :: ps) s = iterTicks hold ps (peakTick hold p p s) := rfl

lemma iter_hold_aux : ∀ (ps : List ℚ) (P : ℚ) (s : PeakState),
    s.lastMaxLeft = P → (∀ p ∈ ps, p ≤ P) →
    s.msSinceLastPeakReset + 10 * (ps.length : ℚ) = 5000 →
    (iterTicks 5 ps s).lastMaxLeft = P ∧
    (iterTicks 5 ps s).msSinceLastPeakReset = 5000 := by
  intro ps
  induction ps with
  | nil =>
    intro P s h1 h2 h3
    refine ⟨h1, ?_⟩
    simpa using h3
  | cons p ps ih =>
    intro P s h1 h2 h3
    push_cast [List.length_cons] at h3
    have hlen : (0 : ℚ) ≤ (ps.length : ℚ) := Nat.cast_nonneg _
    have hmslt : s.msSinceLastPeakReset < 5000 := by linarith
    have hms : ¬ s.msSinceLastPeakReset ≥ (5 : ℚ) * 1000 := by
      push_neg
      linarith
    have hC : ¬((5 : ℚ) = 0 ∨ s.msSinceLastPeakReset ≥ (5 : ℚ) * 1000 ∨ p > s.lastMaxLeft) := by
      push_neg
      exact ⟨by norm_num, by linarith, by rw [h1]; exact h2 p (List.mem_cons_self p ps)⟩
    have hskip := peakTick_skip_left 5 p p s hC
    have hmseq := peakTick_ms 5 p p s (by norm_num)
    rw [if_neg hms] at hmseq
    rw [iterTicks_cons]
    apply ih P (peakTick 5 p p s)
    · rw [hskip.1, h1]
    · intro x hx
      exact h2 x (List.mem_cons_of_mem p hx)
    · rw [hmseq]
      unfold CALLBACK_TIMER_PERIOD_MS
      linarith

/-! ### C8 -/

/-- C8: the telemetry byte-pair encoding agrees with the spec formula
(integral = abs(trunc(value)) clamped to 99, fractional =
round(abs(frac(value)) * 100) clamped to 99), and in particular -23.7
encodes as (23, 70), 0.0 as (0, 0), and -150.0 as (99, 0). -/
theorem C8_encoding :
    (∀ v : ℚ, getMeterIntegralFractional v = specIntegralFractional v) ∧
    getMeterIntegralFractional (-237/10) = (23, 70) ∧
    getMeterIntegralFractional 0 = (0, 0) ∧
    getMeterIntegralFractional (-150) = (99, 0) := by
  refine ⟨gmif_eq_spec, ?_, ?_, ?_⟩ <;>
    norm_num [getMeterIntegralFractional, rtrunc, roundHalfAway]

/-! ### C4 -/

/-- C4 counterexample: the claim's normalization formula
(clamp(value, floor) - floor) / (-floor) with the true-peak floor
(LOWEST_TRUE_PEAK_VALUE) maps 0 dB to 1, but the code's true-peak
write-back maps 0 dB to 125/128: the code divides by the full range
(HIGHEST - LOWEST = 128), not by -floor. -/
theorem C4_counterexample :
    truePeakNormalize 0 = 125/128 ∧
    specNormalize LOWEST_TRUE_PEAK_VALUE 0 = 1 ∧
    truePeakNormalize 0 ≠ specNormalize LOWEST_TRUE_PEAK_VALUE 0 := by
  norm_num [truePeakNormalize, truePeakNormalizeShifted, truePeakRange, specNormalize,
    LOWEST_TRUE_PEAK_VALUE, HIGHEST_TRUE_PEAK_VALUE]

/-- C4 amended: the LUFS write-backs use exactly the spec formula with
floor -64 (so the floor maps to 0, 0 dB to 1, and anything below the
floor clamps to 0), while the true-peak write-back first shifts the raw
value by HIGHEST_TRUE_PEAK_VALUE and normalizes against the full range
[-125, 3]: the floor still maps to 0 and values below it clamp to 0,
but 0 dB maps to 125/128 and 1 is reached only at +3 dB. -/
theorem C4_amended (v : ℚ) :
    lufsNormalize v = specNormalize LOWEST_LUFS_VALUE v ∧
    lufsNormalize LOWEST_LUFS_VALUE = 0 ∧
    lufsNormalize 0 = 1 ∧
    (v ≤ LOWEST_LUFS_VALUE → lufsNormalize v = 0) ∧
    truePeakNormalize v =
      (max v LOWEST_TRUE_PEAK_VALUE - LOWEST_TRUE_PEAK_VALUE)
        / (HIGHEST_TRUE_PEAK_VALUE - LOWEST_TRUE_PEAK_VALUE) ∧
    truePeakNormalize LOWEST_TRUE_PEAK_VALUE = 0 ∧
    truePeakNormalize 0 = 125/128 ∧
    truePeakNormalize HIGHEST_TRUE_PEAK_VALUE = 1 ∧
    (v ≤ LOWEST_TRUE_PEAK_VALUE → truePeakNormalize v = 0) := by
  refine ⟨rfl,
    by norm_num [lufsNormalize, LOWEST_LUFS_VALUE],
    by norm_num [lufsNormalize, LOWEST_LUFS_VALUE],
    ?_, ?_,
    by norm_num [truePeakNormalize, truePeakNormalizeShifted, truePeakRange,
      LOWEST_TRUE_PEAK_VALUE, HIGHEST_TRUE_PEAK_VALUE],
    by norm_num [truePeakNormalize, truePeakNormalizeShifted, truePeakRange,
      LOWEST_TRUE_PEAK_VALUE, HIGHEST_TRUE_PEAK_VALUE],
    by norm_num [truePeakNormalize, truePeakNormalizeShifted, truePeakRange,
      LOWEST_TRUE_PEAK_VALUE, HIGHEST_TRUE_PEAK_VALUE],
    ?_⟩
  · intro h
    unfold lufsNormalize LOWEST_LUFS_VALUE
    unfold LOWEST_LUFS_VALUE at h
    rcases lt_or_le v (-64) with hv | hv
    · rw [if_neg (not_le.mpr hv)]
      norm_num
    · have hve : v = -64 := le_antisymm h hv
      rw [if_pos (ge_iff_le.mpr hv)]
      rw [hve]
      norm_num
  · unfold truePeakNormalize truePeakNormalizeShifted truePeakRange
      LOWEST_TRUE_PEAK_VALUE HIGHEST_TRUE_PEAK_VALUE
    by_cases hc : v - 3 ≥ (-125 : ℚ) - 3
    · rw [max_eq_left (by linarith : (-125 : ℚ) ≤ v), if_pos hc]
      ring
    · rw [max_eq_right (by simp only [ge_iff_le, not_le] at hc; linarith : v ≤ (-125 : ℚ)),
        if_neg hc]
      norm_num
  · intro h
    unfold LOWEST_TRUE_PEAK_VALUE at h
    unfold truePeakNormalize truePeakNormalizeShifted truePeakRange
      LOWEST_TRUE_PEAK_VALUE HIGHEST_TRUE_PEAK_VALUE
    by_cases hc : v - 3 ≥ (-125 : ℚ) - 3
    · have hve : v = -125 := le_antisymm h (by linarith)
      rw [if_pos hc, hve]
      norm_num
    · rw [if_neg hc]
      norm_num

/-- C4 amended, witness: the below-floor clamp conjuncts exercised at
-70 LUFS and -130 dBTP, together with the two round-trip endpoints. -/
theorem C4_amended_w :
    lufsNormalize (-70) = 0 ∧ truePeakNormalize (-130) = 0 ∧
    lufsNormalize 0 = 1 ∧ truePeakNormalize LOWEST_TRUE_PEAK_VALUE = 0 :=
  ⟨(C4_amended (-70)).2.2.2.1 (by norm_num [LOWEST_LUFS_VALUE]),
   (C4_amended (-130)).2.2.2.2.2.2.2.2 (by norm_num [LOWEST_TRUE_PEAK_VALUE]),
   (C4_amended 0).2.2.1,
   (C4_amended 0).2.2.2.2.2.1⟩

lemma gmif_fst_le (v : ℚ) : (getMeterIntegralFractional v).1 ≤ 99 := min_le_right _ _

lemma gmif_snd_le (v : ℚ) : (getMeterIntegralFractional v).2 ≤ 99 := min_le_right _ _

/-! ### C1 -/

/-- C1 counterexample: the meter-data message holds twelve
integral/fractional pairs, not thirteen, so the whole message is 30
bytes (4-byte header plus 24 pair bytes plus 2 clip flags), not 34. -/
theorem C1_counterexample :
    (meterPacket 0 0 0 0 0 0 0 0 0 0).length = 30 ∧
    (meterPacket 0 0 0 0 0 0 0 0 0 0).length ≠ 34 := by
  constructor <;> norm_num [meterPacket]

/-- C1 amended: every meter-data message is exactly 30 bytes: the 3-byte
vendor id and command code 1, then twelve integral/fractional pairs
(short-term, momentary, integrated loudness, loudness-range min, max and
span, loudness target, true-peak L/R, held-peak L/R, held-peak max) each
byte clamped to at most 99, then two clip flags each 0 or 1. -/
theorem C1_amended (lufsSval lufsMval lufsIval lufsMinVal lufsMaxVal lufsTargetVal
    pL pR lastMaxL lastMaxR : ℚ) :
    (meterPacket lufsSval lufsMval lufsIval lufsMinVal lufsMaxVal lufsTargetVal
        pL pR lastMaxL lastMaxR).length = 30 ∧
    (meterPacket lufsSval lufsMval lufsIval lufsMinVal lufsMaxVal lufsTargetVal
        pL pR lastMaxL lastMaxR).take 4 = [0x00, 0x21, 0x69, 0x01] ∧
    (∀ x ∈ (meterPacket lufsSval lufsMval lufsIval lufsMinVal lufsMaxVal lufsTargetVal
        pL pR lastMaxL lastMaxR).drop 4, x ≤ 99) ∧
    (∀ x ∈ (meterPacket lufsSval lufsMval lufsIval lufsMinVal lufsMaxVal lufsTargetVal
        pL pR lastMaxL lastMaxR).drop 28, x ≤ 1) := by
  have hd4 : (meterPacket lufsSval lufsMval lufsIval lufsMinVal lufsMaxVal lufsTargetVal
      pL pR lastMaxL lastMaxR).drop 4 =
    [(getMeterIntegralFractional lufsSval).1, (getMeterIntegralFractional lufsSval).2,
     (getMeterIntegralFractional lufsMval).1, (getMeterIntegralFractional lufsMval).2,
     (getMeterIntegralFractional lufsIval).1, (getMeterIntegralFractional lufsIval).2,
     (getMeterIntegralFractional lufsMinVal).1, (getMeterIntegralFractional lufsMinVal).2,
     (getMeterIntegralFractional lufsMaxVal).1, (getMeterIntegralFractional lufsMaxVal).2,
     (getMeterIntegralFractional (lufsMaxVal - lufsMinVal)).1,
     (getMeterIntegralFractional (lufsMaxVal - lufsMinVal)).2,
     (getMeterIntegralFractional lufsTargetVal).1, (getMeterIntegralFractional lufsTargetVal).2,
     (getMeterIntegralFractional pL).1, (getMeterIntegralFractional pL).2,
     (getMeterIntegralFractional pR).1, (getMeterIntegralFractional pR).2,
     (getMeterIntegralFractional lastMaxL).1, (getMeterIntegralFractional lastMaxL).2,
     (getMeterIntegralFractional lastMaxR).1, (getMeterIntegralFractional lastMaxR).2,
     (getMeterIntegralFractional (if lastMaxL > lastMaxR then lastMaxL else lastMaxR)).1,
     (getMeterIntegralFractional (if lastMaxL > lastMaxR then lastMaxL else lastMaxR)).2,
     if pL + HIGHEST_TRUE_PEAK_VALUE > 0 then 1 else 0,
     if pR + HIGHEST_TRUE_PEAK_VALUE > 0 then 1 else 0] := rfl
  have hd28 : (meterPacket lufsSval lufsMval lufsIval lufsMinVal lufsMaxVal lufsTargetVal
      pL pR lastMaxL lastMaxR).drop 28 =
    [if pL + HIGHEST_TRUE_PEAK_VALUE > 0 then 1 else 0,
     if pR + HIGHEST_TRUE_PEAK_VALUE > 0 then 1 else 0] := rfl
  refine ⟨by norm_num [meterPacket], rfl, ?_, ?_⟩
  · intro x hx
    rw [hd4] at hx
    simp only [List.mem_cons, List.not_mem_nil, or_false] at hx
    rcases hx with rfl|rfl|rfl|rfl|rfl|rfl|rfl|rfl|rfl|rfl|rfl|rfl|rfl|rfl|rfl|rfl|rfl|rfl|
      rfl|rfl|rfl|rfl|rfl|rfl|rfl|rfl <;>
      first
        | exact gmif_fst_le _
        | exact gmif_snd_le _
        | (split <;> norm_num)
  · intro x hx
    rw [hd28] at hx
    simp only [List.mem_cons, List.not_mem_nil, or_false] at hx
    rcases hx with rfl | rfl <;> (split <;> norm_num)

/-- C1 amended, witness: the packet length at all-zero inputs, and the
byte bounds exercised on the first payload byte and the first clip flag. -/
theorem C1_amended_w :
    (meterPacket 0 0 0 0 0 0 0 0 0 0).length = 30 ∧
    (getMeterIntegralFractional 0).1 ≤ 99 ∧
    (if (0 : ℚ) + HIGHEST_TRUE_PEAK_VALUE > 0 then (1 : ℕ) else 0) ≤ 1 :=
  ⟨(C1_amended 0 0 0 0 0 0 0 0 0 0).1,
   (C1_amended 0 0 0 0 0 0 0 0 0 0).2.2.1 _ (by exact List.mem_cons_self _ _),
   (C1_amended 0 0 0 0 0 0 0 0 0 0).2.2.2 _ (by exact List.mem_cons_self _ _)⟩

/-! ### C2 -/

/-- C2 counterexample: a new instantaneous peak (-5, exceeding the held
-10) updates the held maximum, but does NOT reset the elapsed timer: the
shared counter (standing at 4990 ms of a 5 s hold) advances to 5000, so
the very next tick expires the hold and releases to -20 only 10 ms after
the -5 peak was captured, not 5 s later as the claim requires. -/
theorem C2_counterexample :
    (-5 : ℚ) > c2state.lastMaxLeft ∧
    (peakTick 5 (-5) (-5) c2state).lastMaxLeft = -5 ∧
    (peakTick 5 (-5) (-5) c2state).msSinceLastPeakReset = 5000 ∧
    (peakTick 5 (-20) (-20) (peakTick 5 (-5) (-5) c2state)).lastMaxLeft = -20 := by
  have h1 : (peakTick 5 (-5) (-5) c2state).lastMaxLeft = -5 :=
    (peakTick_fire_left 5 (-5) (-5) c2state (by norm_num [c2state])).1
  have h2 : (peakTick 5 (-5) (-5) c2state).msSinceLastPeakReset = 5000 := by
    rw [peakTick_ms 5 (-5) (-5) c2state (by norm_num), if_neg (by norm_num [c2state])]
    norm_num [c2state, CALLBACK_TIMER_PERIOD_MS]
  refine ⟨by norm_num [c2state], h1, h2, ?_⟩
  exact (peakTick_fire_left 5 (-20) (-20) _ (Or.inr (Or.inl (by rw [h2]; norm_num)))).1

/-- C2 amended: with a positive hold duration, the held maximum updates
exactly when the elapsed counter reached the hold duration or the new
instantaneous peak exceeds the held value, but the shared elapsed
counter resets only on expiry (never because a new peak was captured)
and then advances by the tick period; consequently the 5-second display
guarantee holds exactly for a decaying sequence whose initial peak is
captured when the counter is at zero: the held value survives every
subsequent non-exceeding tick until the counter reaches 5000 ms, at
which tick it releases to the current instantaneous value. -/
theorem C2_amended :
    (∀ hold pL pR : ℚ, ∀ s : PeakState, hold > 0 →
      (peakTick hold pL pR s).lastMaxLeft =
        (if s.msSinceLastPeakReset ≥ hold * 1000 ∨ pL > s.lastMaxLeft then pL
         else s.lastMaxLeft)) ∧
    (∀ hold pL pR : ℚ, ∀ s : PeakState, hold > 0 →
      (peakTick hold pL pR s).msSinceLastPeakReset =
        (if s.msSinceLastPeakReset ≥ hold * 1000 then 0 else s.msSinceLastPeakReset)
          + CALLBACK_TIMER_PERIOD_MS) ∧
    (∀ (ps : List ℚ) (P q : ℚ) (s : PeakState),
      s.lastMaxLeft = P → (∀ p ∈ ps, p ≤ P) →
      s.msSinceLastPeakReset + 10 * (ps.length : ℚ) = 5000 →
      (iterTicks 5 ps s).lastMaxLeft = P ∧
      (peakTick 5 q q (iterTicks 5 ps s)).lastMaxLeft = q) := by
  refine ⟨?_, ?_, ?_⟩
  · intro hold pL pR s hpos
    by_cases hc : s.msSinceLastPeakReset ≥ hold * 1000 ∨ pL > s.lastMaxLeft
    · rw [if_pos hc]
      exact (peakTick_fire_left hold pL pR s (Or.inr hc)).1
    · rw [if_neg hc]
      push_neg at hc
      refine (peakTick_skip_left hold pL pR s ?_).1
      push_neg
      exact ⟨ne_of_gt hpos, hc.1, hc.2⟩
  · intro hold pL pR s hpos
    exact peakTick_ms hold pL pR s hpos
  · intro ps P q s h1 h2 h3
    obtain ⟨hL, hms⟩ := iter_hold_aux ps P s h1 h2 h3
    refine ⟨hL, ?_⟩
    exact (peakTick_fire_left 5 q q _ (Or.inr (Or.inl (by rw [hms]; norm_num)))).1

/-- C2 amended, witness: the held-maximum and elapsed-counter equations
at a concrete tick, and the 5-second scenario on the concrete decaying
sequence -6, -7 below a held -5 with 20 ms left on the counter. -/
theorem C2_amended_w :
    (peakTick 5 (-5) (-5) c2holdstate).lastMaxLeft = -5 ∧
    (peakTick 5 (-5) (-5) c2holdstate).msSinceLastPeakReset = 4990 ∧
    (iterTicks 5 [-6, -7] c2holdstate).lastMaxLeft = -5 ∧
    (peakTick 5 (-20) (-20) (iterTicks 5 [-6, -7] c2holdstate)).lastMaxLeft = -20 := by
  have h3 := C2_amended.2.2 [-6, -7] (-5) (-20) c2holdstate
    (by norm_num [c2holdstate])
    (by intro p hp
        simp only [List.mem_cons, List.not_mem_nil, or_false] at hp
        rcases hp with rfl | rfl <;> norm_num)
    (by norm_num [c2holdstate])
  refine ⟨?_, ?_, h3.1, h3.2⟩
  · rw [C2_amended.1 5 (-5) (-5) c2holdstate (by norm_num)]
    norm_num [c2holdstate]
  · rw [C2_amended.2.1 5 (-5) (-5) c2holdstate (by norm_num)]
    norm_num [c2holdstate, CALLBACK_TIMER_PERIOD_MS]

/-! ### C3 -/

/-- C3: on every timer tick and for every hold configuration (any hold
duration, held value and elapsed time), each channel's clip Parameter
reads true after the tick whenever that tick's instantaneous shifted
true-peak exceeds the 0 dBFS-equivalent threshold, given the coupling
invariant that the clip Parameter currently mirrors whether the held
value exceeds the threshold; the tick preserves that invariant, so it
holds in every state reachable from a clip write. -/
theorem C3_clip :
    (∀ hold pL pR : ℚ, ∀ s : PeakState,
      s.clipMeterLeft = decide (s.lastMaxLeft + HIGHEST_TRUE_PEAK_VALUE > 0) →
      pL + HIGHEST_TRUE_PEAK_VALUE > 0 →
      (peakTick hold pL pR s).clipMeterLeft = true) ∧
    (∀ hold pL pR : ℚ, ∀ s : PeakState,
      s.clipMeterRight = decide (s.lastMaxRight + HIGHEST_TRUE_PEAK_VALUE > 0) →
      pR + HIGHEST_TRUE_PEAK_VALUE > 0 →
      (peakTick hold pL pR s).clipMeterRight = true) ∧
    (∀ hold pL pR : ℚ, ∀ s : PeakState,
      s.clipMeterLeft = decide (s.lastMaxLeft + HIGHEST_TRUE_PEAK_VALUE > 0) →
      (peakTick hold pL pR s).clipMeterLeft =
        decide ((peakTick hold pL pR s).lastMaxLeft + HIGHEST_TRUE_PEAK_VALUE > 0)) ∧
    (∀ hold pL pR : ℚ, ∀ s : PeakState,
      s.clipMeterRight = decide (s.lastMaxRight + HIGHEST_TRUE_PEAK_VALUE > 0) →
      (peakTick hold pL pR s).clipMeterRight =
        decide ((peakTick hold pL pR s).lastMaxRight + HIGHEST_TRUE_PEAK_VALUE > 0)) := by
  refine ⟨?_, ?_, ?_, ?_⟩
  · intro hold pL pR s hinv hp
    by_cases hC : hold = 0 ∨ s.msSinceLastPeakReset ≥ hold * 1000 ∨ pL > s.lastMaxLeft
    · rw [(peakTick_fire_left hold pL pR s hC).2]
      exact decide_eq_true hp
    · rw [(peakTick_skip_left hold pL pR s hC).2, hinv]
      push_neg at hC
      exact decide_eq_true (by have := hC.2.2; linarith)
  · intro hold pL pR s hinv hp
    by_cases hC : hold = 0 ∨ s.msSinceLastPeakReset ≥ hold * 1000 ∨ pR > s.lastMaxRight
    · rw [(peakTick_fire_right hold pL pR s hC).2]
      exact decide_eq_true hp
    · rw [(peakTick_skip_right hold pL pR s hC).2, hinv]
      push_neg at hC
      exact decide_eq_true (by have := hC.2.2; linarith)
  · intro hold pL pR s hinv
    by_cases hC : hold = 0 ∨ s.msSinceLastPeakReset ≥ hold * 1000 ∨ pL > s.lastMaxLeft
    · rw [(peakTick_fire_left hold pL pR s hC).2, (peakTick_fire_left hold pL pR s hC).1]
    · rw [(peakTick_skip_left hold pL pR s hC).2, (peakTick_skip_left hold pL pR s hC).1, hinv]
  · intro hold pL pR s hinv
    by_cases hC : hold = 0 ∨ s.msSinceLastPeakReset ≥ hold * 1000 ∨ pR > s.lastMaxRight
    · rw [(peakTick_fire_right hold pL pR s hC).2, (peakTick_fire_right hold pL pR s hC).1]
    · rw [(peakTick_skip_right hold pL pR s hC).2, (peakTick_skip_right hold pL pR s hC).1, hinv]

/-- C3 witness: a tick with instantaneous peaks above the clip threshold
(shifted -1, raw +2 dBTP) on a held, unexpired state sets both clip
Parameters. -/
theorem C3_clip_w :
    (peakTick 5 (-1) (-1) c3state).clipMeterLeft = true ∧
    (peakTick 5 (-1) (-1) c3state).clipMeterRight = true :=
  ⟨C3_clip.1 5 (-1) (-1) c3state
      (by norm_num [c3state, HIGHEST_TRUE_PEAK_VALUE])
      (by norm_num [HIGHEST_TRUE_PEAK_VALUE]),
   C3_clip.2.1 5 (-1) (-1) c3state
      (by norm_num [c3state, HIGHEST_TRUE_PEAK_VALUE])
      (by norm_num [HIGHEST_TRUE_PEAK_VALUE])⟩

/-! ### C9 -/

/-- C9: when no band-solo flag is set, the band-solo router of
processBlock returns the buffer exactly as given, for every filter
network and every buffer. -/
theorem C9_passthrough (filt : ℕ → ℕ → List ℚ → List ℚ) (solo : List Bool)
    (buffer : List (List ℚ)) (h : ∀ b ∈ solo, b = false) :
    bandSoloRouter filt solo buffer = buffer := by
  have hany : isAnyBandSolo solo = false := by
    rw [isAnyBandSolo, List.any_eq_false]
    intro b hb
    simp [h b hb]
  rw [bandSoloRouter, hany]
  simp

/-- C9 witness: a concrete stereo buffer with all four band solos off
passes through an arbitrary concrete filter network unchanged. -/
theorem C9_passthrough_w :
    bandSoloRouter (fun _ _ l => l.map (fun x => x + 1)) [false, false, false, false]
      [[1, 2], [3, 4]] = [[1, 2], [3, 4]] :=
  C9_passthrough _ _ _ (by decide)

/-! ### C5 -/

lemma needsLufsReset_iff (name : String) :
    needsLufsReset name = true ↔
      (name ≠ "muteMode" ∧ name ≠ "dimMode" ∧ name ≠ "refMode" ∧ name ≠ "volModMode") := by
  simp only [needsLufsReset, Bool.and_eq_true, bne_iff_ne, ne_eq]
  tauto

/-- C5 counterexample: a change of volModMode (a mode Parameter outside
the claim's exception set) does NOT reset the loudness accumulation,
while a change of the reset trigger lufsReset (inside the claim's
exception set) DOES emit an accumulation reset: the code's exception
set is mute, dim, reference and volModMode, not the reset trigger. -/
theorem C5_counterexample :
    writeModeParam true cAllOff "volModMode" true =
      Except.ok ({ cAllOff with volModMode := true },
        [Effect.send (WireMsg.noteOn 1 45 1)]) ∧
    writeModeParam true cAllOff "lufsReset" true =
      Except.ok ({ cAllOff with lufsReset := true },
        [Effect.lufsAccumReset, Effect.send (WireMsg.noteOn 1 35 1)]) :=
  ⟨rfl, rfl⟩

/-- C5 amended: a mode-Parameter change resets the loudness measurement
accumulation exactly when the changed Parameter is none of muteMode,
dimMode, refMode and volModMode; in particular the reset trigger itself
does reset it, and the dev-mode volModMode does not. -/
theorem C5_amended (s : ModeState) (name : String) (v : Bool) (s2 : ModeState)
    (evs : List Effect) (h : writeModeParam true s name v = Except.ok (s2, evs)) :
    Effect.lufsAccumReset ∈ evs ↔
      (name ≠ "muteMode" ∧ name ≠ "dimMode" ∧ name ≠ "refMode" ∧ name ≠ "volModMode") := by
  by_cases hmute : name = "muteMode"
  · subst hmute
    cases v
    · rw [show writeModeParam true s "muteMode" false =
          Except.ok (setParam s "muteMode" false,
            [Effect.send (WireMsg.noteOn 1 18 0)]) from rfl] at h
      injection h with h1
      injection h1 with h2 h3
      subst h3
      simp
    · rw [show writeModeParam true s "muteMode" true =
          Except.ok (setParam s "muteMode" true,
            [Effect.send (WireMsg.noteOn 1 18 1)]) from rfl] at h
      injection h with h1
      injection h1 with h2 h3
      subst h3
      simp
  by_cases hdim : name = "dimMode"
  · subst hdim
    cases v
    · rw [show writeModeParam true s "dimMode" false =
          Except.ok (setParam s "dimMode" false,
            [Effect.send (WireMsg.noteOn 1 19 0)]) from rfl] at h
      injection h with h1
      injection h1 with h2 h3
      subst h3
      simp
    · rw [show writeModeParam true s "dimMode" true =
          Except.ok ({ s with dimMode := true, refMode := false },
            [Effect.send (WireMsg.noteOn 1 20 0),
             Effect.send (WireMsg.noteOn 1 19 1)]) from rfl] at h
      injection h with h1
      injection h1 with h2 h3
      subst h3
      simp
  by_cases href : name = "refMode"
  · subst href
    cases v
    · rw [show writeModeParam true s "refMode" false =
          Except.ok (setParam s "refMode" false,
            [Effect.send (WireMsg.noteOn 1 20 0)]) from rfl] at h
      injection h with h1
      injection h1 with h2 h3
      subst h3
      simp
    · rw [show writeModeParam true s "refMode" true =
          Except.ok ({ s with refMode := true, dimMode := false },
            [Effect.send (WireMsg.noteOn 1 19 0),
             Effect.send (WireMsg.noteOn 1 20 1)]) from rfl] at h
      injection h with h1
      injection h1 with h2 h3
      subst h3
      simp
  by_cases hvol : name = "volModMode"
  · subst hvol
    cases v
    · rw [show writeModeParam true s "volModMode" false =
          Except.ok (setParam s "volModMode" false,
            [Effect.send (WireMsg.noteOn 1 45 0)]) from rfl] at h
      injection h with h1
      injection h1 with h2 h3
      subst h3
      simp
    · rw [show writeModeParam true s "volModMode" true =
          Except.ok (setParam s "volModMode" true,
            [Effect.send (WireMsg.noteOn 1 45 1)]) from rfl] at h
      injection h with h1
      injection h1 with h2 h3
      subst h3
      simp
  by_cases hmid : name = "midSolo"
  · subst hmid
    cases v
    · rw [show writeModeParam true s "midSolo" false =
          Except.ok (setParam s "midSolo" false,
            [Effect.lufsAccumReset, Effect.send (WireMsg.noteOn 1 1 0)]) from rfl] at h
      injection h with h1
      injection h1 with h2 h3
      subst h3
      simp
    · rw [show writeModeParam true s "midSolo" true =
          Except.ok ({ s with midSolo := true, sideSolo := false },
            [Effect.lufsAccumReset, Effect.lufsAccumReset,
             Effect.send (WireMsg.noteOn 1 2 0),
             Effect.send (WireMsg.noteOn 1 1 1)]) from rfl] at h
      injection h with h1
      injection h1 with h2 h3
      subst h3
      simp
  by_cases hside : name = "sideSolo"
  · subst hside
    cases v
    · rw [show writeModeParam true s "sideSolo" false =
          Except.ok (setParam s "sideSolo" false,
            [Effect.lufsAccumReset, Effect.send (WireMsg.noteOn 1 2 0)]) from rfl] at h
      injection h with h1
      injection h1 with h2 h3
      subst h3
      simp
    · rw [show writeModeParam true s "sideSolo" true =
          Except.ok ({ s with sideSolo := true, midSolo := false },
            [Effect.lufsAccumReset, Effect.lufsAccumReset,
             Effect.send (WireMsg.noteOn 1 1 0),
             Effect.send (WireMsg.noteOn 1 2 1)]) from rfl] at h
      injection h with h1
      injection h1 with h2 h3
      subst h3
      simp
  · have bmid : (name == "midSolo") = false := beq_eq_false_iff_ne.mpr hmid
    have bside : (name == "sideSolo") = false := beq_eq_false_iff_ne.mpr hside
    have hnr : needsLufsReset name = true :=
      (needsLufsReset_iff name).mpr ⟨hmute, hdim, href, hvol⟩
    have bdim : (name == "dimMode") = false := beq_eq_false_iff_ne.mpr hdim
    have bref : (name == "refMode") = false := beq_eq_false_iff_ne.mpr href
    simp only [writeModeParam, modeChanged, sendMessageNow, bmid, bside, bdim, bref,
      Bool.and_false, Bool.false_eq_true, if_false, hnr, if_true, List.nil_append,
      List.singleton_append, Except.ok.injEq, Prod.mk.injEq] at h
    obtain ⟨h2, h3⟩ := h
    subst h3
    exact iff_of_true (List.mem_cons_self _ _) ⟨hmute, hdim, href, hvol⟩

/-- C5 amended, witness: a band-solo change (solo1, outside the
exception set) emits the accumulation reset. -/
theorem C5_amended_w :
    Effect.lufsAccumReset ∈
      [Effect.lufsAccumReset, Effect.send (WireMsg.noteOn 1 3 1)] :=
  (C5_amended cAllOff "solo1" true { cAllOff with solo1 := true }
    [Effect.lufsAccumReset, Effect.send (WireMsg.noteOn 1 3 1)] rfl).mpr
    (by refine ⟨?_, ?_, ?_, ?_⟩ <;> decide)

/-! ### C6 -/

/-- C6: with the output port unavailable, the timer-tick telemetry is
silently skipped (the source checks the pointer before sending), but the
button-state echo of a mode-Parameter change and the sync-request
button-state dump dereference the NULL output port and fault instead of
skipping; with the port available all three paths emit normally. -/
theorem C6_nullport :
    writeModeParam false cAllOff "midSolo" true = Except.error () ∧
    writeModeParam false cAllOff "muteMode" true = Except.error () ∧
    syncButtons false cAllOff = Except.error () ∧
    meterEmitGuard false (meterPacket 0 0 0 0 0 0 0 0 0 0) = none ∧
    exceptIsOk (writeModeParam true cAllOff "midSolo" true) = true ∧
    exceptIsOk (syncButtons true cAllOff) = true ∧
    meterEmitGuard true (meterPacket 0 0 0 0 0 0 0 0 0 0) =
      some (WireMsg.sysEx (meterPacket 0 0 0 0 0 0 0 0 0 0)) :=
  ⟨rfl, rfl, rfl, rfl, rfl, rfl, rfl⟩

/-! ### C7 -/

/-- C7: from every prior state, completing a write of midSolo := true
leaves sideSolo false (and midSolo true), and symmetrically for
sideSolo; likewise dimMode := true clears refMode and refMode := true
clears dimMode: modeChangedFunction clears the other pair member at
change time. -/
theorem C7_exclusive :
    (∀ (s s2 : ModeState) (evs : List Effect),
      writeModeParam true s "midSolo" true = Except.ok (s2, evs) →
      s2.midSolo = true ∧ s2.sideSolo = false) ∧
    (∀ (s s2 : ModeState) (evs : List Effect),
      writeModeParam true s "sideSolo" true = Except.ok (s2, evs) →
      s2.sideSolo = true ∧ s2.midSolo = false) ∧
    (∀ (s s2 : ModeState) (evs : List Effect),
      writeModeParam true s "dimMode" true = Except.ok (s2, evs) →
      s2.dimMode = true ∧ s2.refMode = false) ∧
    (∀ (s s2 : ModeState) (evs : List Effect),
      writeModeParam true s "refMode" true = Except.ok (s2, evs) →
      s2.refMode = true ∧ s2.dimMode = false) := by
  refine ⟨?_, ?_, ?_, ?_⟩
  · intro s s2 evs h
    rw [show writeModeParam true s "midSolo" true =
        Except.ok ({ s with midSolo := true, sideSolo := false },
          [Effect.lufsAccumReset, Effect.lufsAccumReset,
           Effect.send (WireMsg.noteOn 1 2 0),
           Effect.send (WireMsg.noteOn 1 1 1)]) from rfl] at h
    injection h with h1
    injection h1 with h2 h3
    subst h2
    exact ⟨rfl, rfl⟩
  · intro s s2 evs h
    rw [show writeModeParam true s "sideSolo" true =
        Except.ok ({ s with sideSolo := true, midSolo := false },
          [Effect.lufsAccumReset, Effect.lufsAccumReset,
           Effect.send (WireMsg.noteOn 1 1 0),
           Effect.send (WireMsg.noteOn 1 2 1)]) from rfl] at h
    injection h with h1
    injection h1 with h2 h3
    subst h2
    exact ⟨rfl, rfl⟩
  · intro s s2 evs h
    rw [show writeModeParam true s "dimMode" true =
        Except.ok ({ s with dimMode := true, refMode := false },
          [Effect.send (WireMsg.noteOn 1 20 0),
           Effect.send (WireMsg.noteOn 1 19 1)]) from rfl] at h
    injection h with h1
    injection h1 with h2 h3
    subst h2
    exact ⟨rfl, rfl⟩
  · intro s s2 evs h
    rw [show writeModeParam true s "refMode" true =
        Except.ok ({ s with refMode := true, dimMode := false },
          [Effect.send (WireMsg.noteOn 1 19 0),
           Effect.send (WireMsg.noteOn 1 20 1)]) from rfl] at h
    injection h with h1
    injection h1 with h2 h3
    subst h2
    exact ⟨rfl, rfl⟩

/-- C7 witness: from the all-on adversarial state, each of the four
exclusive writes lands in a state with the partner cleared. -/
theorem C7_exclusive_w :
    (({ cAllOn with midSolo := true, sideSolo := false } : ModeState).midSolo = true ∧
      ({ cAllOn with midSolo := true, sideSolo := false } : ModeState).sideSolo = false) ∧
    (({ cAllOn with sideSolo := true, midSolo := false } : ModeState).sideSolo = true ∧
      ({ cAllOn with sideSolo := true, midSolo := false } : ModeState).midSolo = false) ∧
    (({ cAllOn with dimMode := true, refMode := false } : ModeState).dimMode = true ∧
      ({ cAllOn with dimMode := true, refMode := false } : ModeState).refMode = false) ∧
    (({ cAllOn with refMode := true, dimMode := false } : ModeState).refMode = true ∧
      ({ cAllOn with refMode := true, dimMode := false } : ModeState).dimMode = false) :=
  ⟨C7_exclusive.1 cAllOn _ _ rfl, C7_exclusive.2.1 cAllOn _ _ rfl,
   C7_exclusive.2.2.1 cAllOn _ _ rfl, C7_exclusive.2.2.2 cAllOn _ _ rfl⟩

/-! ### C10 -/

/-- C10: a change that writes a pair member false never modifies the
other member: the exclusivity clearing of modeChangedFunction fires only
when the new value of the changed Parameter is true. -/
theorem C10_frame :
    (∀ (s s2 : ModeState) (evs : List Effect),
      writeModeParam true s "midSolo" false = Except.ok (s2, evs) →
      s2.sideSolo = s.sideSolo) ∧
    (∀ (s s2 : ModeState) (evs : List Effect),
      writeModeParam true s "sideSolo" false = Except.ok (s2, evs) →
      s2.midSolo = s.midSolo) ∧
    (∀ (s s2 : ModeState) (evs : List Effect),
      writeModeParam true s "dimMode" false = Except.ok (s2, evs) →
      s2.refMode = s.refMode) ∧
    (∀ (s s2 : ModeState) (evs : List Effect),
      writeModeParam true s "refMode" false = Except.ok (s2, evs) →
      s2.dimMode = s.dimMode) := by
  refine ⟨?_, ?_, ?_, ?_⟩
  · intro s s2 evs h
    rw [show writeModeParam true s "midSolo" false =
        Except.ok ({ s with midSolo := false },
          [Effect.lufsAccumReset, Effect.send (WireMsg.noteOn 1 1 0)]) from rfl] at h
    injection h with h1
    injection h1 with h2 h3
    subst h2
    rfl
  · intro s s2 evs h
    rw [show writeModeParam true s "sideSolo" false =
        Except.ok ({ s with sideSolo := false },
          [Effect.lufsAccumReset, Effect.send (WireMsg.noteOn 1 2 0)]) from rfl] at h
    injection h with h1
    injection h1 with h2 h3
    subst h2
    rfl
  · intro s s2 evs h
    rw [show writeModeParam true s "dimMode" false =
        Except.ok ({ s with dimMode := false },
          [Effect.send (WireMsg.noteOn 1 19 0)]) from rfl] at h
    injection h with h1
    injection h1 with h2 h3
    subst h2
    rfl
  · intro s s2 evs h
    rw [show writeModeParam true s "refMode" false =
        Except.ok ({ s with refMode := false },
          [Effect.send (WireMsg.noteOn 1 20 0)]) from rfl] at h
    injection h with h1
    injection h1 with h2 h3
    subst h2
    rfl

/-- C10 witness: from the all-on state, writing each pair member false
leaves the partner still on. -/
theorem C10_frame_w :
    ({ cAllOn with midSolo := false } : ModeState).sideSolo = cAllOn.sideSolo ∧
    ({ cAllOn with sideSolo := false } : ModeState).midSolo = cAllOn.midSolo ∧
    ({ cAllOn with dimMode := false } : ModeState).refMode = cAllOn.refMode ∧
    ({ cAllOn with refMode := false } : ModeState).dimMode = cAllOn.dimMode :=
  ⟨C10_frame.1 cAllOn _ _ rfl, C10_frame.2.1 cAllOn _ _ rfl,
   C10_frame.2.2.1 cAllOn _ _ rfl, C10_frame.2.2.2 cAllOn _ _ rfl⟩

end DreamControl
